import Mathlib

/-!
Verification of the image acquisition, content-addressed caching, and flash
dispatch pipeline of the turingpi Terraform provider, together with the
idempotent power/USB device-state operations.

The development is a shallow embedding of the Go sources:
  * `internal/client/cache.go`    — `ImageCache` and its lookup/store operations,
  * `internal/client/download.go` — `DownloadImage` and compression detection,
  * `internal/resources/node_flash/resource.go` — `executeFlash`,
  * `internal/resources/node_power/resource.go` — power Create/Update,
  * the node_usb resource — USB Create/Update and `setUsbMode`.

Filesystems (the local disk and the BMC cache directory reachable over
SFTP) are modelled as association lists from path/name to file content.
External effects that can fail (the SFTP list/upload/exec primitives, the
HTTP transfer, the flash device write) are driven by explicitly injected
outcomes, so each Go error branch is represented.
-/

set_option autoImplicit false
set_option linter.unusedVariables false

namespace TuringPi

/-- File contents are byte lists. -/
abbrev Content := List Nat

/-- Entry returned by the BMC list-directory primitive (`tpi.FileInfo`). -/
structure FileInfo where
  name : String
deriving DecidableEq, Repr

/-- Association-list lookup of a file by exact path/name. -/
def lookupFile : List (String × Content) → String → Option Content
  | [], _ => none
  | (n, c) :: fs, q => if n = q then some c else lookupFile fs q

/-- Remove every entry stored under a path (`os.Remove`). -/
def removeFileL : List (String × Content) → String → List (String × Content)
  | [], _ => []
  | (n, c) :: fs, q => if n = q then removeFileL fs q else (n, c) :: removeFileL fs q

/-- Create-or-truncate a file at a path (`os.Create` followed by a full write). -/
def writeFileL (fs : List (String × Content)) (p : String) (c : Content) :
    List (String × Content) :=
  (p, c) :: removeFileL fs p

/-- Failure cause of the BMC list-directory primitive.  The Go code receives
an opaque `error`; the cause is distinguished here only so that statements
about "directory does not exist" versus other I/O failures can be made. -/
inductive ListErr where
  | notFound
  | permissionDenied
  | ioFailure
deriving DecidableEq, Repr

/-- State of the BMC-side cache directory plus injected transport faults. -/
structure BMCState where
  dirExists : Bool
  files : List (String × Content)
  listFault : Option ListErr
  execFault : Bool
  uploadFault : Bool
deriving DecidableEq, Repr

/-- Combined mutable world: the local filesystem and the BMC cache state. -/
structure Sys where
  localFiles : List (String × Content)
  bmc : BMCState
deriving DecidableEq, Repr

/-- `client.ListDirectory` on the BMC cache directory: an injected transport
fault fails the call; otherwise listing a missing directory fails with
not-found, and listing an existing one returns its entries. -/
def ListDirectory (b : BMCState) : Except ListErr (List FileInfo) :=
  match b.listFault with
  | some e => Except.error e
  | none =>
    if b.dirExists then Except.ok (b.files.map fun p => ⟨p.1⟩)
    else Except.error ListErr.notFound

/-- Cache location constants from `cache.go`. -/
def CacheLocationLocal : String := "local"

/-- Cache location constant selecting the BMC backend. -/
def CacheLocationBMC : String := "bmc"

/-- Cache location constant disabling caching. -/
def CacheLocationNone : String := "none"

/-- The fixed BMC cache directory (`bmcCacheDir` in `cache.go`). -/
def bmcCacheDir : String := "/tmp/tpi-cache"

/-- The `ImageCache` manager; `localDir` is the per-user local cache directory. -/
structure ImageCache where
  localDir : String
deriving DecidableEq, Repr

/-- `getLocalCachePath`: stat the canonical local path; present gives the
path, absent gives the empty string (the Go code's cache-miss sentinel). -/
def getLocalCachePath (c : ImageCache) (sha256 : String) (s : Sys) :
    Except String String :=
  let path := c.localDir ++ "/" ++ sha256 ++ ".img"
  if (lookupFile s.localFiles path).isSome then Except.ok path else Except.ok ""

/-- `getBMCCachePath`: list the BMC cache directory and match by filename.
Any listing failure whatsoever is treated as a cache miss (the source
returns `"", nil` on every `ListDirectory` error). -/
def getBMCCachePath (sha256 : String) (s : Sys) : Except String String :=
  let remotePath := bmcCacheDir ++ "/" ++ sha256 ++ ".img"
  match ListDirectory s.bmc with
  | Except.error _ => Except.ok ""
  | Except.ok files =>
    let expectedName := sha256 ++ ".img"
    if files.any fun f => f.name = expectedName then Except.ok remotePath
    else Except.ok ""

/-- `GetCachedImagePath`: dispatch the lookup on the location string. -/
def GetCachedImagePath (c : ImageCache) (sha256 location : String) (s : Sys) :
    Except String String :=
  if location = CacheLocationLocal then getLocalCachePath c sha256 s
  else if location = CacheLocationBMC then getBMCCachePath sha256 s
  else if location = CacheLocationNone then Except.ok ""
  else Except.error ("unknown cache location: " ++ location)

/-- `cacheLocally`: copy into the local cache unless already present.
The returned `Nat` counts physical transfers (the `io.Copy`) performed. -/
def cacheLocally (c : ImageCache) (srcPath sha256 : String) (s : Sys) :
    Except String String × Sys × Nat :=
  let destPath := c.localDir ++ "/" ++ sha256 ++ ".img"
  if (lookupFile s.localFiles destPath).isSome then (Except.ok destPath, s, 0)
  else
    match lookupFile s.localFiles srcPath with
    | none => (Except.error "failed to open source file", s, 0)
    | some content =>
      (Except.ok destPath,
       { s with localFiles := writeFileL s.localFiles destPath content }, 1)

/-- `cacheToBMC`: `mkdir -p` the remote cache directory, check for an
existing entry, and upload only when absent.  The `Nat` counts uploads. -/
def cacheToBMC (localPath sha256 : String) (s : Sys) :
    Except String String × Sys × Nat :=
  let remotePath := bmcCacheDir ++ "/" ++ sha256 ++ ".img"
  if s.bmc.execFault then (Except.error "failed to create BMC cache directory", s, 0)
  else
    let s1 : Sys := { s with bmc := { s.bmc with dirExists := true } }
    match getBMCCachePath sha256 s1 with
    | Except.error e => (Except.error e, s1, 0)
    | Except.ok existingPath =>
      if existingPath ≠ "" then (Except.ok existingPath, s1, 0)
      else if s1.bmc.uploadFault then (Except.error "failed to upload to BMC", s1, 0)
      else
        match lookupFile s1.localFiles localPath with
        | none => (Except.error "failed to upload to BMC", s1, 0)
        | some content =>
          (Except.ok remotePath,
           { s1 with bmc :=
              { s1.bmc with files := writeFileL s1.bmc.files (sha256 ++ ".img") content } },
           1)

/-- `CacheImage`: dispatch the store on the location string; `"none"`
returns the input path unchanged without touching any backend. -/
def CacheImage (c : ImageCache) (localPath sha256 location : String) (s : Sys) :
    Except String String × Sys × Nat :=
  if location = CacheLocationLocal then cacheLocally c localPath sha256 s
  else if location = CacheLocationBMC then cacheToBMC localPath sha256 s
  else if location = CacheLocationNone then (Except.ok localPath, s, 0)
  else (Except.error ("unknown cache location: " ++ location), s, 0)

/-- Spec-side read of the file stored under a hash at a backend's canonical
cache path. -/
def fileAtCachePath (c : ImageCache) (location sha256 : String) (s : Sys) :
    Option Content :=
  if location = CacheLocationLocal then
    lookupFile s.localFiles (c.localDir ++ "/" ++ sha256 ++ ".img")
  else if location = CacheLocationBMC then
    lookupFile s.bmc.files (sha256 ++ ".img")
  else none

/-! ### Fetcher (`download.go`) -/

/-- Result of `DownloadImage` (`DownloadResult` in `download.go`). -/
structure DownloadResult where
  path : String
  sha256 : String
deriving DecidableEq, Repr

/-- The HTTP response delivered to `DownloadImage` by the transport. -/
structure HttpResponse where
  statusCode : Nat
  contentType : String
  body : Content
deriving DecidableEq, Repr

/-- `pat.isPrefixOf`-based scan over all tails: substring containment
(`strings.Contains`). -/
def strContainsAux (pat : List Char) : List Char → Bool
  | [] => pat.isPrefixOf ([] : List Char)
  | c :: cs => pat.isPrefixOf (c :: cs) || strContainsAux pat cs

/-- `strings.Contains s pat`. -/
def strContains (s pat : String) : Bool :=
  strContainsAux pat.data s.data

/-- `strings.ToLower`, implemented on the character list. -/
def strToLower (s : String) : String :=
  String.mk (s.data.map Char.toLower)

/-- `strings.HasSuffix`, implemented on the character list. -/
def strEndsWith (s suffixStr : String) : Bool :=
  suffixStr.data.isSuffixOf s.data

/-- Drop the last `n` characters of a string. -/
def strDropRight (s : String) (n : Nat) : String :=
  String.mk (s.data.take (s.data.length - n))

/-- Split a character list on a separator, keeping empty segments. -/
def splitChar (sep : Char) : List Char → List (List Char)
  | [] => [[]]
  | c :: cs =>
    let r := splitChar sep cs
    if c = sep then [] :: r
    else
      match r with
      | [] => [[c]]
      | h :: t => (c :: h) :: t

/-- `filepath.Base`: the last non-empty path component. -/
def filePathBase (p : String) : String :=
  match ((splitChar '/' p.data).filter fun x => x ≠ []).getLast? with
  | some x => String.mk x
  | none => if p = "" then "." else "/"

/-- `detectCompression`: suffix of the lowercased URL first, then tokens of
the lowercased content type, else no compression. -/
def detectCompression (url contentType : String) : String :=
  let url := strToLower url
  if strEndsWith url ".xz" then "xz"
  else if strEndsWith url ".gz" || strEndsWith url ".gzip" then "gz"
  else if strEndsWith url ".zip" then "zip"
  else
    let contentType := strToLower contentType
    if strContains contentType "xz" || strContains contentType "x-xz" then "xz"
    else if strContains contentType "gzip" then "gz"
    else if strContains contentType "zip" then "zip"
    else ""

/-- Output path of `decompress`: trim the compression suffix, falling back
to a `.decompressed` suffix when the name does not carry it. -/
def decompressOutputPath (path compression : String) : String :=
  let suffixStr := "." ++ compression
  if strEndsWith path suffixStr then strDropRight path suffixStr.length
  else path ++ ".decompressed"

/-- `decompress`: dispatch on the compression kind.  The format-specific
decoders (xz/gzip/zip libraries) are abstracted as the `decomp` argument. -/
def decompress (decomp : String → Content → Except String Content)
    (path compression : String) (body : Content) :
    Except String (String × Content) :=
  let outputPath := decompressOutputPath path compression
  if compression = "xz" ∨ compression = "gz" ∨ compression = "zip" then
    match decomp compression body with
    | Except.error e => Except.error e
    | Except.ok c => Except.ok (outputPath, c)
  else Except.error ("unsupported compression: " ++ compression)

/-- `DownloadImage`: download, optionally decompress (deleting the
compressed original), hash the final bytes, and verify the expected hash,
deleting the output on mismatch.  Returns the result, the final world, and
the cumulative list of file paths that were created at any point. -/
def DownloadImage (hashFn : Content → String)
    (decomp : String → Content → Except String Content)
    (url expectedSHA256 destDir : String)
    (resp : Except String HttpResponse) (s : Sys) :
    Except String DownloadResult × Sys × List String :=
  match resp with
  | Except.error e => (Except.error ("failed to download: " ++ e), s, [])
  | Except.ok r =>
    if r.statusCode ≠ 200 then
      (Except.error ("download failed with status: " ++ toString r.statusCode), s, [])
    else
      let filename := filePathBase url
      let compression := detectCompression url r.contentType
      let downloadPath := destDir ++ "/" ++ filename
      let s1 : Sys := { s with localFiles := writeFileL s.localFiles downloadPath r.body }
      if compression = "" then
        let sha := hashFn r.body
        if expectedSHA256 ≠ "" ∧ sha ≠ expectedSHA256 then
          (Except.error ("SHA256 mismatch: expected " ++ expectedSHA256 ++ ", got " ++ sha),
           { s1 with localFiles := removeFileL s1.localFiles downloadPath }, [downloadPath])
        else
          (Except.ok ⟨downloadPath, sha⟩, s1, [downloadPath])
      else
        match decompress decomp downloadPath compression r.body with
        | Except.error e =>
          (Except.error ("failed to decompress: " ++ e), s1, [downloadPath])
        | Except.ok (finalPath, content) =>
          let fs2 := removeFileL (writeFileL s1.localFiles finalPath content) downloadPath
          let s2 : Sys := { s1 with localFiles := fs2 }
          let sha := hashFn content
          if expectedSHA256 ≠ "" ∧ sha ≠ expectedSHA256 then
            (Except.error ("SHA256 mismatch: expected " ++ expectedSHA256 ++ ", got " ++ sha),
             { s2 with localFiles := removeFileL s2.localFiles finalPath },
             [downloadPath, finalPath])
          else
            (Except.ok ⟨finalPath, sha⟩, s2, [downloadPath, finalPath])

/-! ### FlashOrchestrator (`node_flash/resource.go`) -/

/-- Result of `executeFlash` (`FlashResult`). -/
structure FlashResult where
  sha256 : String
deriving DecidableEq, Repr

/-- The remote flash operation dispatched at the end of `executeFlash`. -/
inductive FlashOp where
  | flashNodeLocal (node : Nat) (imagePath : String)
  | flashNode (node : Nat) (imagePath : String) (sha256 : String) (skipCRC : Bool)
deriving DecidableEq, Repr

/-- Observable trace of one `executeFlash` run: number of `DownloadImage`
invocations, number of `CacheImage` attempts and failures, and the flash
operation dispatched (if execution reached the dispatch). -/
structure ExecTrace where
  downloads : Nat
  cacheAttempts : Nat
  cacheFailures : Nat
  flashOp : Option FlashOp
deriving DecidableEq, Repr

/-- Plan attributes consumed by `executeFlash`; the empty string encodes an
unset optional attribute, as in the source's null-or-empty checks. -/
structure Plan where
  node : Nat
  imageURL : String
  imagePath : String
  sha256 : String
  cache : String
  skipCRC : Bool
deriving DecidableEq, Repr

/-- Tail of `executeFlash`: the deferred temp-file cleanup and the flash
dispatch, which selects `FlashNodeLocal` exactly when the cache location is
the BMC, and `FlashNode` otherwise.  `flashOk` injects the device outcome. -/
def finishFlash (flashOk : Bool) (node : Nat) (skipCRC : Bool)
    (cacheLocation imagePath sha256 tempFile : String) (s : Sys)
    (downloads cacheAttempts cacheFailures : Nat) :
    Except String FlashResult × Sys × ExecTrace :=
  let op := if cacheLocation = CacheLocationBMC then FlashOp.flashNodeLocal node imagePath
            else FlashOp.flashNode node imagePath sha256 skipCRC
  let s' := if tempFile ≠ "" ∧ tempFile ≠ imagePath then
              { s with localFiles := removeFileL s.localFiles tempFile }
            else s
  if flashOk then
    (Except.ok ⟨sha256⟩, s', ⟨downloads, cacheAttempts, cacheFailures, some op⟩)
  else
    (Except.error "flash operation failed", s',
     ⟨downloads, cacheAttempts, cacheFailures, some op⟩)

/-- `executeFlash`: resolve the image (cache lookup, then download, or a
local file), store it in the configured cache backend (failures only
logged), clean up the temp file, and dispatch exactly one flash operation.
Faithful to the source: in the URL branch the freshly downloaded path is
used for the dispatch even when the store to the cache succeeded. -/
def executeFlash (c : ImageCache) (hashFn : Content → String)
    (decomp : String → Content → Except String Content)
    (resp : Except String HttpResponse) (destDir : String) (flashOk : Bool)
    (plan : Plan) (s : Sys) :
    Except String FlashResult × Sys × ExecTrace :=
  let node := plan.node
  let cacheLocation := plan.cache
  if plan.imageURL ≠ "" then
    let expectedSHA256 := plan.sha256
    let cached : String :=
      if expectedSHA256 ≠ "" then
        match GetCachedImagePath c expectedSHA256 cacheLocation s with
        | Except.error _ => ""
        | Except.ok cachedPath => cachedPath
      else ""
    if cached ≠ "" then
      finishFlash flashOk node plan.skipCRC cacheLocation cached expectedSHA256 "" s 0 0 0
    else
      match DownloadImage hashFn decomp plan.imageURL expectedSHA256 destDir resp s with
      | (Except.error e, s1, _) =>
        (Except.error ("failed to download image: " ++ e), s1, ⟨1, 0, 0, none⟩)
      | (Except.ok result, s1, _) =>
        if cacheLocation ≠ CacheLocationNone then
          match CacheImage c result.path result.sha256 cacheLocation s1 with
          | (Except.error _, s2, _) =>
            finishFlash flashOk node plan.skipCRC cacheLocation result.path result.sha256
              result.path s2 1 1 1
          | (Except.ok _, s2, _) =>
            finishFlash flashOk node plan.skipCRC cacheLocation result.path result.sha256
              result.path s2 1 1 0
        else
          finishFlash flashOk node plan.skipCRC cacheLocation result.path result.sha256
            result.path s1 1 0 0
  else
    let imagePath := plan.imagePath
    let shaRes : Except String String :=
      if plan.sha256 ≠ "" then Except.ok plan.sha256
      else
        match lookupFile s.localFiles imagePath with
        | none => Except.error "failed to calculate SHA256"
        | some content => Except.ok (hashFn content)
    match shaRes with
    | Except.error e => (Except.error e, s, ⟨0, 0, 0, none⟩)
    | Except.ok sha256 =>
      if cacheLocation ≠ CacheLocationNone then
        match CacheImage c imagePath sha256 cacheLocation s with
        | (Except.error _, s2, _) =>
          finishFlash flashOk node plan.skipCRC cacheLocation imagePath sha256 "" s2 0 1 1
        | (Except.ok cachedPath, s2, _) =>
          finishFlash flashOk node plan.skipCRC cacheLocation cachedPath sha256 "" s2 0 1 0
      else
        finishFlash flashOk node plan.skipCRC cacheLocation imagePath sha256 "" s 0 0 0

/-! ### Power and USB resources -/

/-- Remote power state-change commands. -/
inductive PowerCmd where
  | powerOn (node : Nat)
  | powerOff (node : Nat)
deriving DecidableEq, Repr

/-- Go map read `status[node]` with the zero value `false` for absent keys. -/
def lookupStatus : List (Nat × Bool) → Nat → Bool
  | [], _ => false
  | (n, b) :: rest, q => if n = q then b else lookupStatus rest q

/-- `NodePowerResource.Create`: read the current power state first, then
issue a state-change command only when it differs from the desired state.
Returns the outcome and the list of state-change commands issued. -/
def nodePowerCreate (statusResult : Except String (List (Nat × Bool)))
    (cmdOk : Bool) (node : Nat) (desired : Bool) :
    Except String Unit × List PowerCmd :=
  match statusResult with
  | Except.error e => (Except.error ("Could not read power status: " ++ e), [])
  | Except.ok status =>
    let currentState := lookupStatus status node
    if currentState ≠ desired then
      let cmd := if desired then PowerCmd.powerOn node else PowerCmd.powerOff node
      if cmdOk then (Except.ok (), [cmd])
      else (Except.error "Could not set power state", [cmd])
    else (Except.ok (), [])

/-- `NodePowerResource.Update`: identical reconciliation logic to `Create`
(the source duplicates the body). -/
def nodePowerUpdate (statusResult : Except String (List (Nat × Bool)))
    (cmdOk : Bool) (node : Nat) (desired : Bool) :
    Except String Unit × List PowerCmd :=
  match statusResult with
  | Except.error e => (Except.error ("Could not read power status: " ++ e), [])
  | Except.ok status =>
    let currentState := lookupStatus status node
    if currentState ≠ desired then
      let cmd := if desired then PowerCmd.powerOn node else PowerCmd.powerOff node
      if cmdOk then (Except.ok (), [cmd])
      else (Except.error "Could not set power state", [cmd])
    else (Except.ok (), [])

/-- Remote USB state-change commands. -/
inductive UsbCmd where
  | setHost (node : Nat) (bmc : Bool)
  | setDevice (node : Nat) (bmc : Bool)
  | setFlash (node : Nat) (bmc : Bool)
deriving DecidableEq, Repr

/-- `setUsbMode`: dispatch one USB mode command on the mode string. -/
def setUsbMode (cmdOk : Bool) (node : Nat) (mode : String) (bmc : Bool) :
    Except String Unit × List UsbCmd :=
  let outcome : Except String Unit :=
    if cmdOk then Except.ok () else Except.error "usb command failed"
  if mode = "host" then (outcome, [UsbCmd.setHost node bmc])
  else if mode = "device" then (outcome, [UsbCmd.setDevice node bmc])
  else if mode = "flash" then (outcome, [UsbCmd.setFlash node bmc])
  else (Except.error ("unknown USB mode: " ++ mode), [])

/-- `NodeUsbResource.Create`: calls `setUsbMode` unconditionally.  The
device's current USB configuration is passed here only so that statements
can relate it to the desired one; the source never reads it in `Create`
(no `UsbGetStatus` call), and it is ignored. -/
def nodeUsbCreate (currentMode : String) (currentRouteBMC : Bool)
    (cmdOk : Bool) (node : Nat) (mode : String) (bmc : Bool) :
    Except String Unit × List UsbCmd :=
  setUsbMode cmdOk node mode bmc

/-- `NodeUsbResource.Update`: identical to `Create`; the current USB
configuration is likewise never read. -/
def nodeUsbUpdate (currentMode : String) (currentRouteBMC : Bool)
    (cmdOk : Bool) (node : Nat) (mode : String) (bmc : Bool) :
    Except String Unit × List UsbCmd :=
  setUsbMode cmdOk node mode bmc

/-- Absence of injected transport faults: the fault-free executions of the
cache operations. -/
def faultFree (s : Sys) : Prop :=
  s.bmc.listFault = none ∧ s.bmc.execFault = false ∧ s.bmc.uploadFault = false

instance (s : Sys) : Decidable (faultFree s) := by
  unfold faultFree
  infer_instance

/-- Spec-side view of the final artifact a `DownloadImage` run with the
given response would produce: the path and content of the fully
decompressed file, or `none` when decompression fails. -/
def dlFinal (decomp : String → Content → Except String Content)
    (url destDir : String) (r : HttpResponse) : Option (String × Content) :=
  let compression := detectCompression url r.contentType
  let downloadPath := destDir ++ "/" ++ filePathBase url
  if compression = "" then some (downloadPath, r.body)
  else
    match decomp compression r.body with
    | Except.error _ => none
    | Except.ok c => some (decompressOutputPath downloadPath compression, c)

/-! ### Basic filesystem lemmas -/

theorem lookupFile_removeFileL (fs : List (String × Content)) (p q : String) :
    lookupFile (removeFileL fs p) q = if p = q then none else lookupFile fs q := by
  induction fs with
  | nil => simp [removeFileL, lookupFile]
  | cons hd tl ih =>
    rcases hd with ⟨n, c⟩
    by_cases h1 : n = p <;> by_cases h2 : n = q <;> by_cases h3 : p = q <;>
      simp_all [removeFileL, lookupFile]

theorem lookupFile_writeFileL (fs : List (String × Content)) (p : String)
    (c : Content) (q : String) :
    lookupFile (writeFileL fs p c) q = if p = q then some c else lookupFile fs q := by
  by_cases h : p = q <;> simp [writeFileL, lookupFile, lookupFile_removeFileL, h]

theorem any_map_name (fs : List (String × Content)) (q : String) :
    ((fs.map fun p => (⟨p.1⟩ : FileInfo)).any fun f => f.name = q) =
      (lookupFile fs q).isSome := by
  induction fs with
  | nil => simp [lookupFile]
  | cons hd tl ih =>
    rcases hd with ⟨n, c⟩
    by_cases h : n = q <;> simp_all [lookupFile]

theorem getBMCCachePath_listing (h : String) (s : Sys)
    (hf : s.bmc.listFault = none) (hd : s.bmc.dirExists = true) :
    getBMCCachePath h s =
      Except.ok (if (lookupFile s.bmc.files (h ++ ".img")).isSome then
        bmcCacheDir ++ "/" ++ h ++ ".img" else "") := by
  unfold getBMCCachePath ListDirectory
  rw [hf, hd]
  simp only [any_map_name, if_true]
  split <;> rfl

/-! ### Claim C10 — unknown cache locations are rejected without effect -/

/-- C10: for every location string outside `{"local", "bmc", "none"}`, both
`GetCachedImagePath` and `CacheImage` return the "unknown cache location"
error, `CacheImage` leaves the world unchanged, and no transfer happens. -/
theorem c10_unknown_cache_location (c : ImageCache) (p h loc : String) (s : Sys)
    (h1 : loc ≠ CacheLocationLocal) (h2 : loc ≠ CacheLocationBMC)
    (h3 : loc ≠ CacheLocationNone) :
    GetCachedImagePath c h loc s = Except.error ("unknown cache location: " ++ loc) ∧
    CacheImage c p h loc s = (Except.error ("unknown cache location: " ++ loc), s, 0) := by
  unfold GetCachedImagePath CacheImage
  rw [if_neg h1, if_neg h2, if_neg h3, if_neg h1, if_neg h2, if_neg h3]
  exact ⟨rfl, rfl⟩

/-- C10 witness: the location string `"remote"` is rejected by both
operations with no state change. -/
theorem c10_unknown_cache_location_witness :
    GetCachedImagePath ⟨"/c"⟩ "h" "remote" ⟨[], ⟨false, [], none, false, false⟩⟩ =
      Except.error "unknown cache location: remote" ∧
    CacheImage ⟨"/c"⟩ "/p" "h" "remote" ⟨[], ⟨false, [], none, false, false⟩⟩ =
      (Except.error "unknown cache location: remote",
       ⟨[], ⟨false, [], none, false, false⟩⟩, 0) :=
  c10_unknown_cache_location ⟨"/c"⟩ "/p" "h" "remote"
    ⟨[], ⟨false, [], none, false, false⟩⟩ (by decide) (by decide) (by decide)

/-! ### Claim C2 — BMC lookup failure semantics -/

/-- C2 counterexample: a list-directory failure that is not "directory does
not exist" (here a permission failure, with the directory existing and the
entry physically present) is still answered with a cache miss (`ok ""`),
not with a propagated error, refuting the claim that only not-found
failures are converted to misses. -/
theorem c2_counterexample :
    getBMCCachePath "aa"
      ⟨[], ⟨true, [("aa.img", [1])], some ListErr.permissionDenied, false, false⟩⟩ =
      Except.ok "" ∧
    ListErr.permissionDenied ≠ ListErr.notFound := by
  exact ⟨rfl, by decide⟩

/-- C2 amended: every failure of the list-directory operation, whatever its
cause, is treated by `getBMCCachePath` as a cache miss (empty path, no
error); no list failure is ever propagated to the caller. -/
theorem c2_all_list_failures_are_cache_miss (h : String) (s : Sys) (e : ListErr)
    (he : ListDirectory s.bmc = Except.error e) :
    getBMCCachePath h s = Except.ok "" := by
  unfold getBMCCachePath
  rw [he]

/-- C2 witness: a transport I/O failure on listing yields a miss. -/
theorem c2_all_list_failures_are_cache_miss_witness :
    getBMCCachePath "bb" ⟨[], ⟨true, [], some ListErr.ioFailure, false, false⟩⟩ =
      Except.ok "" :=
  c2_all_list_failures_are_cache_miss "bb"
    ⟨[], ⟨true, [], some ListErr.ioFailure, false, false⟩⟩ ListErr.ioFailure rfl

/-! ### Claim C3 — idempotent device-state operations -/

/-- C3 counterexample: the USB resource's `Create` issues a state-change
command even when the observed USB configuration (mode `"host"`, routed
through the USB-A connector) already equals the desired one — it never
reads the current state, refuting the claim for the USB resource. -/
theorem c3_counterexample :
    (nodeUsbCreate "host" false true 1 "host" false).2.length = 1 ∧
    (nodeUsbCreate "host" false true 1 "host" false).2 = [UsbCmd.setHost 1 false] := by
  exact ⟨rfl, rfl⟩

/-- C3 amended: the power resource's Create/Update read the current state
first and issue zero state-change commands when it equals the desired
state and exactly one when it differs (and none at all when the state read
fails); the USB resource's Create/Update never read the current state and
always issue exactly one command for a valid mode, regardless of the
current configuration. -/
theorem c3_power_idempotent_usb_not (status : List (Nat × Bool)) (e : String)
    (cmdOk : Bool) (node : Nat) (desired : Bool)
    (currentMode : String) (currentRouteBMC : Bool) (mode : String) (bmc : Bool) :
    (lookupStatus status node = desired →
      nodePowerCreate (Except.ok status) cmdOk node desired = (Except.ok (), []) ∧
      nodePowerUpdate (Except.ok status) cmdOk node desired = (Except.ok (), [])) ∧
    (lookupStatus status node ≠ desired →
      (nodePowerCreate (Except.ok status) cmdOk node desired).2.length = 1 ∧
      (nodePowerUpdate (Except.ok status) cmdOk node desired).2.length = 1) ∧
    ((nodePowerCreate (Except.error e) cmdOk node desired).2 = [] ∧
     (nodePowerUpdate (Except.error e) cmdOk node desired).2 = []) ∧
    (mode = "host" ∨ mode = "device" ∨ mode = "flash" →
      (nodeUsbCreate currentMode currentRouteBMC cmdOk node mode bmc).2.length = 1 ∧
      (nodeUsbUpdate currentMode currentRouteBMC cmdOk node mode bmc).2.length = 1) := by
  refine ⟨fun hEq => ?_, fun hNe => ?_, ⟨rfl, rfl⟩, fun hMode => ?_⟩
  · simp [nodePowerCreate, nodePowerUpdate, hEq]
  · constructor <;>
      · simp only [nodePowerCreate, nodePowerUpdate, if_pos hNe]
        split <;> simp
  · rcases hMode with h | h | h <;>
      simp [nodeUsbCreate, nodeUsbUpdate, setUsbMode, h]

/-- C3 witness: with node 2 currently off, desiring off issues no power
command, desiring on issues one; the USB resource issues one command even
with current state equal to desired. -/
theorem c3_power_idempotent_usb_not_witness :
    nodePowerCreate (Except.ok [(2, false)]) true 2 false = (Except.ok (), []) ∧
    (nodePowerCreate (Except.ok [(2, false)]) true 2 true).2.length = 1 ∧
    (nodeUsbCreate "device" true true 2 "device" true).2.length = 1 := by
  refine ⟨((c3_power_idempotent_usb_not [(2, false)] "" true 2 false "device" true
      "device" true).1 (by decide)).1, ?_, ?_⟩
  · exact ((c3_power_idempotent_usb_not [(2, false)] "" true 2 true "device" true
      "device" true).2.1 (by decide)).1
  · exact ((c3_power_idempotent_usb_not [(2, false)] "" true 2 true "device" true
      "device" true).2.2.2 (Or.inr (Or.inl rfl))).1

/-! ### Claim C9 — HTTP status gating of the download -/

/-- C9 counterexample: a `201 Created` response — a 2xx status — is
rejected by `DownloadImage` with the status error before any file is
written, refuting the claim that every 2xx status proceeds. -/
theorem c9_counterexample :
    DownloadImage (fun _ => "h") (fun _ _ => Except.error "x") "http://e/img" "" "/d"
      (Except.ok ⟨201, "", [1]⟩) ⟨[], ⟨false, [], none, false, false⟩⟩ =
      (Except.error "download failed with status: 201",
       ⟨[], ⟨false, [], none, false, false⟩⟩, []) ∧
    200 ≤ 201 ∧ 201 ≤ 299 := by
  exact ⟨rfl, by decide, by decide⟩

/-- C9 amended: `DownloadImage` rejects exactly the responses whose status
code is not `200 OK`: every non-200 response (2xx or not) yields the
status error with no file written and the world unchanged, and every 200
response proceeds to write the downloaded body to disk. -/
theorem c9_download_status_200_only (hashFn : Content → String)
    (decomp : String → Content → Except String Content)
    (url expected destDir : String) (r : HttpResponse) (s : Sys) :
    (r.statusCode ≠ 200 →
      DownloadImage hashFn decomp url expected destDir (Except.ok r) s =
        (Except.error ("download failed with status: " ++ toString r.statusCode), s, [])) ∧
    (r.statusCode = 200 →
      (destDir ++ "/" ++ filePathBase url) ∈
        (DownloadImage hashFn decomp url expected destDir (Except.ok r) s).2.2) := by
  constructor
  · intro h
    dsimp only [DownloadImage]
    rw [if_pos h]
  · intro h
    dsimp only [DownloadImage]
    rw [if_neg (by simp [h])]
    split
    · split
      · simp
      · simp
    · split
      · simp
      · split
        · simp
        · simp

/-- C9 witness: a 500 response is rejected with the world untouched, and a
200 response leads to the downloaded file being created. -/
theorem c9_download_status_200_only_witness :
    DownloadImage (fun _ => "h") (fun _ _ => Except.error "x") "http://e/img" "" "/d"
      (Except.ok ⟨500, "", [1]⟩) ⟨[], ⟨false, [], none, false, false⟩⟩ =
      (Except.error "download failed with status: 500",
       ⟨[], ⟨false, [], none, false, false⟩⟩, []) ∧
    ("/d" ++ "/" ++ filePathBase "http://e/img") ∈
      (DownloadImage (fun _ => "h") (fun _ _ => Except.error "x") "http://e/img" "" "/d"
        (Except.ok ⟨200, "", [1]⟩) ⟨[], ⟨false, [], none, false, false⟩⟩).2.2 := by
  constructor
  · exact (c9_download_status_200_only (fun _ => "h") (fun _ _ => Except.error "x")
      "http://e/img" "" "/d" ⟨500, "", [1]⟩ ⟨[], ⟨false, [], none, false, false⟩⟩).1
      (by decide)
  · exact (c9_download_status_200_only (fun _ => "h") (fun _ _ => Except.error "x")
      "http://e/img" "" "/d" ⟨200, "", [1]⟩ ⟨[], ⟨false, [], none, false, false⟩⟩).2 rfl

/-! ### Cache branch lemmas -/

theorem strAppend_ne_empty (a b : String) (hb : b ≠ "") : a ++ b ≠ "" := by
  intro hcontr
  apply hb
  have hd := congrArg String.data hcontr
  simp only [String.data_append] at hd
  rcases List.append_eq_nil.mp hd with ⟨h1, h2⟩
  exact String.ext h2

theorem cachePath_ne_empty (a h : String) : a ++ "/" ++ h ++ ".img" ≠ "" :=
  strAppend_ne_empty _ _ (by decide)

theorem cacheLocally_already (c : ImageCache) (p h : String) (s : Sys)
    (hhit : (lookupFile s.localFiles (c.localDir ++ "/" ++ h ++ ".img")).isSome = true) :
    cacheLocally c p h s = (Except.ok (c.localDir ++ "/" ++ h ++ ".img"), s, 0) := by
  dsimp only [cacheLocally]
  rw [if_pos hhit]

theorem cacheLocally_copy (c : ImageCache) (p h : String) (s : Sys) (content : Content)
    (hmiss : (lookupFile s.localFiles (c.localDir ++ "/" ++ h ++ ".img")).isSome = false)
    (hsrc : lookupFile s.localFiles p = some content) :
    cacheLocally c p h s =
      (Except.ok (c.localDir ++ "/" ++ h ++ ".img"),
       { s with localFiles :=
          writeFileL s.localFiles (c.localDir ++ "/" ++ h ++ ".img") content }, 1) := by
  dsimp only [cacheLocally]
  rw [if_neg (by simp [hmiss]), hsrc]

theorem cacheLocally_src_missing (c : ImageCache) (p h : String) (s : Sys)
    (hmiss : (lookupFile s.localFiles (c.localDir ++ "/" ++ h ++ ".img")).isSome = false)
    (hsrc : lookupFile s.localFiles p = none) :
    cacheLocally c p h s = (Except.error "failed to open source file", s, 0) := by
  dsimp only [cacheLocally]
  rw [if_neg (by simp [hmiss]), hsrc]

theorem cacheToBMC_already (p h : String) (s : Sys)
    (hexec : s.bmc.execFault = false) (hlist : s.bmc.listFault = none)
    (hhit : (lookupFile s.bmc.files (h ++ ".img")).isSome = true) :
    cacheToBMC p h s =
      (Except.ok (bmcCacheDir ++ "/" ++ h ++ ".img"),
       { s with bmc := { s.bmc with dirExists := true } }, 0) := by
  dsimp only [cacheToBMC]
  rw [if_neg (by simp [hexec])]
  rw [getBMCCachePath_listing h { s with bmc := { s.bmc with dirExists := true } }
    hlist rfl]
  dsimp only
  rw [if_pos hhit, if_pos (cachePath_ne_empty bmcCacheDir h)]

theorem cacheToBMC_upload (p h : String) (s : Sys) (content : Content)
    (hexec : s.bmc.execFault = false) (hlist : s.bmc.listFault = none)
    (hupload : s.bmc.uploadFault = false)
    (hmiss : (lookupFile s.bmc.files (h ++ ".img")).isSome = false)
    (hsrc : lookupFile s.localFiles p = some content) :
    cacheToBMC p h s =
      (Except.ok (bmcCacheDir ++ "/" ++ h ++ ".img"),
       { s with bmc := { s.bmc with
          dirExists := true,
          files := writeFileL s.bmc.files (h ++ ".img") content } }, 1) := by
  dsimp only [cacheToBMC]
  rw [if_neg (show ¬(s.bmc.execFault = true) by simp [hexec])]
  rw [getBMCCachePath_listing h { s with bmc := { s.bmc with dirExists := true } }
    hlist rfl]
  dsimp only
  rw [if_neg (show ¬((lookupFile s.bmc.files (h ++ ".img")).isSome = true) by
    simp [hmiss])]
  rw [if_neg (show ¬(("" : String) ≠ "") by simp)]
  rw [if_neg (show ¬(s.bmc.uploadFault = true) by simp [hupload])]
  rw [hsrc]

theorem cacheToBMC_src_missing (p h : String) (s : Sys)
    (hexec : s.bmc.execFault = false) (hlist : s.bmc.listFault = none)
    (hupload : s.bmc.uploadFault = false)
    (hmiss : (lookupFile s.bmc.files (h ++ ".img")).isSome = false)
    (hsrc : lookupFile s.localFiles p = none) :
    cacheToBMC p h s =
      (Except.error "failed to upload to BMC",
       { s with bmc := { s.bmc with dirExists := true } }, 0) := by
  dsimp only [cacheToBMC]
  rw [if_neg (show ¬(s.bmc.execFault = true) by simp [hexec])]
  rw [getBMCCachePath_listing h { s with bmc := { s.bmc with dirExists := true } }
    hlist rfl]
  dsimp only
  rw [if_neg (show ¬((lookupFile s.bmc.files (h ++ ".img")).isSome = true) by
    simp [hmiss])]
  rw [if_neg (show ¬(("" : String) ≠ "") by simp)]
  rw [if_neg (show ¬(s.bmc.uploadFault = true) by simp [hupload])]
  rw [hsrc]

/-! ### Claim C4 — put is idempotent -/

/-- C4: in fault-free operation, `put` is idempotent for every hash and
every backend: an already-present entry is returned with zero physical
transfers (locally and on the BMC); two consecutive `CacheImage` calls
with the same arguments perform at most one transfer in total, with the
second returning the same path as the first and transferring nothing; and
for location `"none"` the input path is returned unchanged with no
transfer and no state change. -/
theorem c4_put_idempotent (c : ImageCache) (p h loc : String) (s : Sys)
    (hff : faultFree s) :
    ((lookupFile s.localFiles (c.localDir ++ "/" ++ h ++ ".img")).isSome = true →
      cacheLocally c p h s = (Except.ok (c.localDir ++ "/" ++ h ++ ".img"), s, 0)) ∧
    ((lookupFile s.bmc.files (h ++ ".img")).isSome = true →
      cacheToBMC p h s =
        (Except.ok (bmcCacheDir ++ "/" ++ h ++ ".img"),
         { s with bmc := { s.bmc with dirExists := true } }, 0)) ∧
    (∀ p1 s1 n1, CacheImage c p h loc s = (Except.ok p1, s1, n1) →
      n1 ≤ 1 ∧ (CacheImage c p h loc s1).1 = Except.ok p1 ∧
      (CacheImage c p h loc s1).2.2 = 0) ∧
    CacheImage c p h CacheLocationNone s = (Except.ok p, s, 0) := by
  obtain ⟨hlist, hexec, hupload⟩ := hff
  refine ⟨fun hhit => cacheLocally_already c p h s hhit,
          fun hhit => cacheToBMC_already p h s hexec hlist hhit,
          fun p1 s1 n1 hput => ?_, ?_⟩
  · by_cases l1 : loc = CacheLocationLocal
    · subst l1
      rw [show CacheImage c p h CacheLocationLocal s = cacheLocally c p h s from
        if_pos rfl] at hput
      rw [show CacheImage c p h CacheLocationLocal s1 = cacheLocally c p h s1 from
        if_pos rfl]
      by_cases hhit : (lookupFile s.localFiles (c.localDir ++ "/" ++ h ++ ".img")).isSome = true
      · rw [cacheLocally_already c p h s hhit] at hput
        simp only [Prod.mk.injEq, Except.ok.injEq] at hput
        obtain ⟨hp1, hs1, hn1⟩ := hput
        subst hp1; subst hs1; subst hn1
        rw [cacheLocally_already c p h s hhit]
        exact ⟨by norm_num, rfl, rfl⟩
      · rw [Bool.not_eq_true] at hhit
        cases hsrc : lookupFile s.localFiles p with
        | none =>
          rw [cacheLocally_src_missing c p h s hhit hsrc] at hput
          simp at hput
        | some content =>
          rw [cacheLocally_copy c p h s content hhit hsrc] at hput
          simp only [Prod.mk.injEq, Except.ok.injEq] at hput
          obtain ⟨hp1, hs1, hn1⟩ := hput
          subst hp1; subst hs1; subst hn1
          have hhit2 : (lookupFile
              (writeFileL s.localFiles (c.localDir ++ "/" ++ h ++ ".img") content)
              (c.localDir ++ "/" ++ h ++ ".img")).isSome = true := by
            rw [lookupFile_writeFileL, if_pos rfl]
            rfl
          rw [cacheLocally_already c p h _ hhit2]
          exact ⟨by norm_num, rfl, rfl⟩
    · by_cases l2 : loc = CacheLocationBMC
      · subst l2
        rw [show CacheImage c p h CacheLocationBMC s = cacheToBMC p h s from by
          rw [CacheImage, if_neg (by decide), if_pos rfl]] at hput
        rw [show CacheImage c p h CacheLocationBMC s1 = cacheToBMC p h s1 from by
          rw [CacheImage, if_neg (by decide), if_pos rfl]]
        by_cases hhit : (lookupFile s.bmc.files (h ++ ".img")).isSome = true
        · rw [cacheToBMC_already p h s hexec hlist hhit] at hput
          simp only [Prod.mk.injEq, Except.ok.injEq] at hput
          obtain ⟨hp1, hs1, hn1⟩ := hput
          subst hp1; subst hs1; subst hn1
          rw [cacheToBMC_already p h
            { s with bmc := { s.bmc with dirExists := true } } hexec hlist hhit]
          exact ⟨by norm_num, rfl, rfl⟩
        · rw [Bool.not_eq_true] at hhit
          cases hsrc : lookupFile s.localFiles p with
          | none =>
            rw [cacheToBMC_src_missing p h s hexec hlist hupload hhit hsrc] at hput
            simp at hput
          | some content =>
            rw [cacheToBMC_upload p h s content hexec hlist hupload hhit hsrc] at hput
            simp only [Prod.mk.injEq, Except.ok.injEq] at hput
            obtain ⟨hp1, hs1, hn1⟩ := hput
            subst hp1; subst hs1; subst hn1
            have hhit2 : (lookupFile
                (writeFileL s.bmc.files (h ++ ".img") content)
                (h ++ ".img")).isSome = true := by
              rw [lookupFile_writeFileL, if_pos rfl]
              rfl
            rw [cacheToBMC_already p h
              { s with bmc := { s.bmc with
                 dirExists := true,
                 files := writeFileL s.bmc.files (h ++ ".img") content } }
              hexec hlist hhit2]
            exact ⟨by norm_num, rfl, rfl⟩
      · by_cases l3 : loc = CacheLocationNone
        · subst l3
          rw [show CacheImage c p h CacheLocationNone s = (Except.ok p, s, 0) from by
            rw [CacheImage, if_neg (by decide), if_neg (by decide), if_pos rfl]] at hput
          simp only [Prod.mk.injEq, Except.ok.injEq] at hput
          obtain ⟨hp1, hs1, hn1⟩ := hput
          subst hp1; subst hs1; subst hn1
          rw [show CacheImage c p h CacheLocationNone s = (Except.ok p, s, 0) from by
            rw [CacheImage, if_neg (by decide), if_neg (by decide), if_pos rfl]]
          exact ⟨by norm_num, rfl, rfl⟩
        · rw [show CacheImage c p h loc s =
              (Except.error ("unknown cache location: " ++ loc), s, 0) from by
            rw [CacheImage, if_neg l1, if_neg l2, if_neg l3]] at hput
          simp at hput
  · rw [CacheImage, if_neg (by decide), if_neg (by decide), if_pos rfl]

/-- C4 witness: a concrete fault-free world where the hash is already
cached locally and on the BMC, exercising the hit cases, the double-put
bound for the local backend, and the `"none"` no-op. -/
theorem c4_put_idempotent_witness :
    cacheLocally ⟨"/c"⟩ "/src" "aa"
      ⟨[("/c/aa.img", [2]), ("/src", [2])],
       ⟨true, [("aa.img", [2])], none, false, false⟩⟩ =
      (Except.ok "/c/aa.img",
       ⟨[("/c/aa.img", [2]), ("/src", [2])],
        ⟨true, [("aa.img", [2])], none, false, false⟩⟩, 0) ∧
    CacheImage ⟨"/c"⟩ "/src" "aa" "none"
      ⟨[("/c/aa.img", [2]), ("/src", [2])],
       ⟨true, [("aa.img", [2])], none, false, false⟩⟩ =
      (Except.ok "/src",
       ⟨[("/c/aa.img", [2]), ("/src", [2])],
        ⟨true, [("aa.img", [2])], none, false, false⟩⟩, 0) := by
  constructor
  · exact (c4_put_idempotent ⟨"/c"⟩ "/src" "aa" "none"
      ⟨[("/c/aa.img", [2]), ("/src", [2])],
       ⟨true, [("aa.img", [2])], none, false, false⟩⟩ (by decide)).1 (by decide)
  · exact (c4_put_idempotent ⟨"/c"⟩ "/src" "aa" "none"
      ⟨[("/c/aa.img", [2]), ("/src", [2])],
       ⟨true, [("aa.img", [2])], none, false, false⟩⟩ (by decide)).2.2.2

/-! ### Claim C7 — lookup after put round-trips -/

/-- C7: for both backends, after a successful `put` the subsequent `lookup`
for the same hash returns the stored path (a non-empty hit), and the file
stored at that location hashes to the hash, provided the source file
hashes to the hash and any pre-existing entry under the hash respected the
content-addressing invariant. -/
theorem c7_lookup_after_put (c : ImageCache) (hashFn : Content → String)
    (p h loc : String) (s : Sys) (path : String) (s2 : Sys) (n : Nat)
    (hff : faultFree s)
    (hloc : loc = CacheLocationLocal ∨ loc = CacheLocationBMC)
    (hsrc : ∀ cnt, lookupFile s.localFiles p = some cnt → hashFn cnt = h)
    (hinv : ∀ cnt, fileAtCachePath c loc h s = some cnt → hashFn cnt = h)
    (hput : CacheImage c p h loc s = (Except.ok path, s2, n)) :
    GetCachedImagePath c h loc s2 = Except.ok path ∧ path ≠ "" ∧
    ∃ cnt, fileAtCachePath c loc h s2 = some cnt ∧ hashFn cnt = h := by
  obtain ⟨hlist, hexec, hupload⟩ := hff
  rcases hloc with hl | hl
  · subst hl
    rw [show CacheImage c p h CacheLocationLocal s = cacheLocally c p h s from
      if_pos rfl] at hput
    by_cases hhit : (lookupFile s.localFiles (c.localDir ++ "/" ++ h ++ ".img")).isSome = true
    · rw [cacheLocally_already c p h s hhit] at hput
      simp only [Prod.mk.injEq, Except.ok.injEq] at hput
      obtain ⟨hp1, hs1, hn1⟩ := hput
      subst hp1; subst hs1
      obtain ⟨cnt, hcnt⟩ := Option.isSome_iff_exists.mp hhit
      refine ⟨?_, cachePath_ne_empty c.localDir h, cnt, ?_, ?_⟩
      · rw [GetCachedImagePath, if_pos rfl]
        dsimp only [getLocalCachePath]
        rw [if_pos hhit]
      · rw [fileAtCachePath, if_pos rfl]
        exact hcnt
      · exact hinv cnt (by rw [fileAtCachePath, if_pos rfl]; exact hcnt)
    · rw [Bool.not_eq_true] at hhit
      cases hsrcc : lookupFile s.localFiles p with
      | none =>
        rw [cacheLocally_src_missing c p h s hhit hsrcc] at hput
        simp at hput
      | some content =>
        rw [cacheLocally_copy c p h s content hhit hsrcc] at hput
        simp only [Prod.mk.injEq, Except.ok.injEq] at hput
        obtain ⟨hp1, hs1, hn1⟩ := hput
        subst hp1; subst hs1
        have hlook : lookupFile
            (writeFileL s.localFiles (c.localDir ++ "/" ++ h ++ ".img") content)
            (c.localDir ++ "/" ++ h ++ ".img") = some content := by
          rw [lookupFile_writeFileL, if_pos rfl]
        refine ⟨?_, cachePath_ne_empty c.localDir h, content, ?_, hsrc content hsrcc⟩
        · rw [GetCachedImagePath, if_pos rfl]
          dsimp only [getLocalCachePath]
          rw [if_pos (by rw [hlook]; rfl)]
        · rw [fileAtCachePath, if_pos rfl]
          exact hlook
  · subst hl
    rw [show CacheImage c p h CacheLocationBMC s = cacheToBMC p h s from by
      rw [CacheImage, if_neg (by decide), if_pos rfl]] at hput
    by_cases hhit : (lookupFile s.bmc.files (h ++ ".img")).isSome = true
    · rw [cacheToBMC_already p h s hexec hlist hhit] at hput
      simp only [Prod.mk.injEq, Except.ok.injEq] at hput
      obtain ⟨hp1, hs1, hn1⟩ := hput
      subst hp1; subst hs1
      obtain ⟨cnt, hcnt⟩ := Option.isSome_iff_exists.mp hhit
      refine ⟨?_, cachePath_ne_empty bmcCacheDir h, cnt, ?_, ?_⟩
      · rw [GetCachedImagePath, if_neg (by decide), if_pos rfl]
        rw [getBMCCachePath_listing h
          { s with bmc := { s.bmc with dirExists := true } } hlist rfl]
        rw [if_pos hhit]
      · rw [fileAtCachePath, if_neg (by decide), if_pos rfl]
        exact hcnt
      · refine hinv cnt ?_
        rw [fileAtCachePath, if_neg (by decide), if_pos rfl]
        exact hcnt
    · rw [Bool.not_eq_true] at hhit
      cases hsrcc : lookupFile s.localFiles p with
      | none =>
        rw [cacheToBMC_src_missing p h s hexec hlist hupload hhit hsrcc] at hput
        simp at hput
      | some content =>
        rw [cacheToBMC_upload p h s content hexec hlist hupload hhit hsrcc] at hput
        simp only [Prod.mk.injEq, Except.ok.injEq] at hput
        obtain ⟨hp1, hs1, hn1⟩ := hput
        subst hp1; subst hs1
        have hlook : lookupFile
            (writeFileL s.bmc.files (h ++ ".img") content) (h ++ ".img") =
            some content := by
          rw [lookupFile_writeFileL, if_pos rfl]
        refine ⟨?_, cachePath_ne_empty bmcCacheDir h, content, ?_, hsrc content hsrcc⟩
        · rw [GetCachedImagePath, if_neg (by decide), if_pos rfl]
          rw [getBMCCachePath_listing h
            { s with bmc := { s.bmc with
               dirExists := true,
               files := writeFileL s.bmc.files (h ++ ".img") content } } hlist rfl]
          rw [if_pos (by rw [hlook]; rfl)]
        · rw [fileAtCachePath, if_neg (by decide), if_pos rfl]
          exact hlook

/-- C7 witness, exercising both backends: storing a fresh file under hash
`"kk"` in the local backend and looking it up returns the canonical local
path with matching content hash, and storing a fresh file under hash
`"mm"` in the BMC backend and looking it up returns the canonical remote
path with matching content hash. -/
theorem c7_lookup_after_put_witness :
    (GetCachedImagePath ⟨"/c"⟩ "kk" "local"
      ⟨[("/c/kk.img", [3]), ("/src", [3])], ⟨false, [], none, false, false⟩⟩ =
      Except.ok "/c/kk.img" ∧
    ("/c/kk.img" : String) ≠ "" ∧
    ∃ cnt, fileAtCachePath ⟨"/c"⟩ "local" "kk"
      ⟨[("/c/kk.img", [3]), ("/src", [3])], ⟨false, [], none, false, false⟩⟩ =
        some cnt ∧ (if cnt = [3] then "kk" else "zz") = "kk") ∧
    (GetCachedImagePath ⟨"/c"⟩ "mm" "bmc"
      ⟨[("/srcb", [4])], ⟨true, [("mm.img", [4])], none, false, false⟩⟩ =
      Except.ok "/tmp/tpi-cache/mm.img" ∧
    ("/tmp/tpi-cache/mm.img" : String) ≠ "" ∧
    ∃ cnt, fileAtCachePath ⟨"/c"⟩ "bmc" "mm"
      ⟨[("/srcb", [4])], ⟨true, [("mm.img", [4])], none, false, false⟩⟩ =
        some cnt ∧ (if cnt = [4] then "mm" else "zz") = "mm") := by
  constructor
  · refine c7_lookup_after_put ⟨"/c"⟩ (fun cnt => if cnt = [3] then "kk" else "zz")
      "/src" "kk" "local"
      ⟨[("/src", [3])], ⟨false, [], none, false, false⟩⟩ "/c/kk.img"
      ⟨[("/c/kk.img", [3]), ("/src", [3])], ⟨false, [], none, false, false⟩⟩ 1
      (by decide) (Or.inl rfl) ?_ ?_ rfl
    · intro cnt hc
      rw [show lookupFile [("/src", [3])] "/src" = some [3] from rfl] at hc
      cases hc
      rfl
    · intro cnt hc
      rw [show fileAtCachePath ⟨"/c"⟩ "local" "kk"
        ⟨[("/src", [3])], ⟨false, [], none, false, false⟩⟩ = none from rfl] at hc
      cases hc
  · refine c7_lookup_after_put ⟨"/c"⟩ (fun cnt => if cnt = [4] then "mm" else "zz")
      "/srcb" "mm" "bmc"
      ⟨[("/srcb", [4])], ⟨false, [], none, false, false⟩⟩ "/tmp/tpi-cache/mm.img"
      ⟨[("/srcb", [4])], ⟨true, [("mm.img", [4])], none, false, false⟩⟩ 1
      (by decide) (Or.inr rfl) ?_ ?_ rfl
    · intro cnt hc
      rw [show lookupFile [("/srcb", [4])] "/srcb" = some [4] from rfl] at hc
      cases hc
      rfl
    · intro cnt hc
      rw [show fileAtCachePath ⟨"/c"⟩ "bmc" "mm"
        ⟨[("/srcb", [4])], ⟨false, [], none, false, false⟩⟩ = none from rfl] at hc
      cases hc

/-! ### Orchestrator lemmas -/

theorem finishFlash_parts (fl : Bool) (node : Nat) (skip : Bool)
    (loc ip sha tf : String) (s : Sys) (d ca cf : Nat) :
    (finishFlash fl node skip loc ip sha tf s d ca cf).2.2 =
      ⟨d, ca, cf, some (if loc = CacheLocationBMC then FlashOp.flashNodeLocal node ip
        else FlashOp.flashNode node ip sha skip)⟩ ∧
    (finishFlash fl node skip loc ip sha tf s d ca cf).1 =
      (if fl then Except.ok ⟨sha⟩ else Except.error "flash operation failed") := by
  dsimp only [finishFlash]
  constructor <;> split <;> rfl

/-- Every `executeFlash` run either exits early with an error, no flash
dispatch, and no recorded cache failure, or ends in the `finishFlash`
tail. -/
theorem executeFlash_cases (c : ImageCache) (hashFn : Content → String)
    (decomp : String → Content → Except String Content)
    (resp : Except String HttpResponse) (destDir : String) (flashOk : Bool)
    (plan : Plan) (s : Sys) :
    ((executeFlash c hashFn decomp resp destDir flashOk plan s).2.2.flashOp = none ∧
     (executeFlash c hashFn decomp resp destDir flashOk plan s).2.2.cacheFailures = 0) ∨
    (∃ ip sha tf s' d ca cf,
      executeFlash c hashFn decomp resp destDir flashOk plan s =
        finishFlash flashOk plan.node plan.skipCRC plan.cache ip sha tf s' d ca cf) := by
  dsimp only [executeFlash]
  repeat' split
  all_goals first
    | exact Or.inl ⟨rfl, rfl⟩
    | exact Or.inr ⟨_, _, _, _, _, _, _, rfl⟩

/-! ### Claim C6 — cache hit skips the download -/

/-- C6: when the source is a URL with an expected hash and the cache lookup
at the configured location returns a present (non-empty) path, no download
is performed and any successful result reports exactly the expected
hash. -/
theorem c6_cache_hit_skips_download (c : ImageCache) (hashFn : Content → String)
    (decomp : String → Content → Except String Content)
    (resp : Except String HttpResponse) (destDir : String) (flashOk : Bool)
    (plan : Plan) (s : Sys) (p : String)
    (hurl : plan.imageURL ≠ "")
    (hsha : plan.sha256 ≠ "")
    (hhit : GetCachedImagePath c plan.sha256 plan.cache s = Except.ok p)
    (hp : p ≠ "") :
    (executeFlash c hashFn decomp resp destDir flashOk plan s).2.2.downloads = 0 ∧
    ∀ r, (executeFlash c hashFn decomp resp destDir flashOk plan s).1 = Except.ok r →
      r.sha256 = plan.sha256 := by
  have hred : executeFlash c hashFn decomp resp destDir flashOk plan s =
      finishFlash flashOk plan.node plan.skipCRC plan.cache p plan.sha256 "" s 0 0 0 := by
    dsimp only [executeFlash]
    rw [if_pos hurl, if_pos hsha, hhit]
    dsimp only
    rw [if_pos hp]
  rw [hred]
  constructor
  · rw [(finishFlash_parts flashOk plan.node plan.skipCRC plan.cache p plan.sha256
      "" s 0 0 0).1]
  · intro r hr
    rw [(finishFlash_parts flashOk plan.node plan.skipCRC plan.cache p plan.sha256
      "" s 0 0 0).2] at hr
    cases flashOk with
    | false => simp at hr
    | true =>
      rw [if_pos rfl] at hr
      cases hr
      rfl

/-- C6 witness: with `kk.img` pre-cached locally, provisioning from a URL
with expected hash `"kk"` downloads nothing and reports `"kk"`. -/
theorem c6_cache_hit_skips_download_witness :
    (executeFlash ⟨"/c"⟩ (fun _ => "zz") (fun _ _ => Except.error "x")
      (Except.error "unused") "/d" true ⟨1, "http://x/i.img", "", "kk", "local", false⟩
      ⟨[("/c/kk.img", [3])], ⟨false, [], none, false, false⟩⟩).2.2.downloads = 0 ∧
    (FlashResult.mk "kk").sha256 = "kk" := by
  constructor
  · exact (c6_cache_hit_skips_download ⟨"/c"⟩ (fun _ => "zz") (fun _ _ => Except.error "x")
      (Except.error "unused") "/d" true ⟨1, "http://x/i.img", "", "kk", "local", false⟩
      ⟨[("/c/kk.img", [3])], ⟨false, [], none, false, false⟩⟩ "/c/kk.img"
      (by decide) (by decide) rfl (by decide)).1
  · exact (c6_cache_hit_skips_download ⟨"/c"⟩ (fun _ => "zz") (fun _ _ => Except.error "x")
      (Except.error "unused") "/d" true ⟨1, "http://x/i.img", "", "kk", "local", false⟩
      ⟨[("/c/kk.img", [3])], ⟨false, [], none, false, false⟩⟩ "/c/kk.img"
      (by decide) (by decide) rfl (by decide)).2 ⟨"kk"⟩ rfl

/-! ### Claim C8 — cache-store failures never fail provisioning -/

/-- C8: whenever a run of `executeFlash` records a cache-store failure, the
orchestration still reaches the flash dispatch (a flash operation is
issued), and the run's outcome is exactly the flash outcome — success with
the resolved hash when the device write succeeds, the flash error when it
fails — independent of the caching failure. -/
theorem c8_cache_store_failure_nonfatal (c : ImageCache) (hashFn : Content → String)
    (decomp : String → Content → Except String Content)
    (resp : Except String HttpResponse) (destDir : String) (flashOk : Bool)
    (plan : Plan) (s : Sys)
    (hcf : 1 ≤ (executeFlash c hashFn decomp resp destDir flashOk plan s).2.2.cacheFailures) :
    (executeFlash c hashFn decomp resp destDir flashOk plan s).2.2.flashOp.isSome = true ∧
    ∃ sha, (executeFlash c hashFn decomp resp destDir flashOk plan s).1 =
      (if flashOk then Except.ok ⟨sha⟩ else Except.error "flash operation failed") := by
  rcases executeFlash_cases c hashFn decomp resp destDir flashOk plan s with
    ⟨hop, hzero⟩ | ⟨ip, sha, tf, s', d, ca, cf, hfin⟩
  · rw [hzero] at hcf
    exact absurd hcf (by norm_num)
  · rw [hfin]
    refine ⟨?_, sha, ?_⟩
    · rw [(finishFlash_parts flashOk plan.node plan.skipCRC plan.cache ip sha tf
        s' d ca cf).1]
      rfl
    · exact (finishFlash_parts flashOk plan.node plan.skipCRC plan.cache ip sha tf
        s' d ca cf).2

/-- C8 witness: a run whose cache store fails (missing source file for the
local copy) still flashes and succeeds with the resolved hash. -/
theorem c8_cache_store_failure_nonfatal_witness :
    (executeFlash ⟨"/c"⟩ (fun _ => "zz") (fun _ _ => Except.error "x")
      (Except.error "unused") "/d" true ⟨1, "", "/src", "hh", "local", false⟩
      ⟨[], ⟨false, [], none, false, false⟩⟩).2.2.flashOp.isSome = true ∧
    ∃ sha, (executeFlash ⟨"/c"⟩ (fun _ => "zz") (fun _ _ => Except.error "x")
      (Except.error "unused") "/d" true ⟨1, "", "/src", "hh", "local", false⟩
      ⟨[], ⟨false, [], none, false, false⟩⟩).1 =
      (if true then Except.ok ⟨sha⟩ else Except.error "flash operation failed") :=
  c8_cache_store_failure_nonfatal ⟨"/c"⟩ (fun _ => "zz") (fun _ _ => Except.error "x")
    (Except.error "unused") "/d" true ⟨1, "", "/src", "hh", "local", false⟩
    ⟨[], ⟨false, [], none, false, false⟩⟩ (by decide)

/-! ### Claim C5 — integrity failures delete the artifact and store nothing -/

theorem detectCompression_cases (url ct : String) :
    detectCompression url ct = "" ∨ detectCompression url ct = "xz" ∨
    detectCompression url ct = "gz" ∨ detectCompression url ct = "zip" := by
  unfold detectCompression
  dsimp only
  repeat' split
  all_goals decide

/-- On a hash mismatch, `DownloadImage` returns the integrity error, the
final artifact is deleted, every local file is either deleted or untouched,
and the BMC is untouched. -/
theorem DownloadImage_mismatch (hashFn : Content → String)
    (decomp : String → Content → Except String Content)
    (url expected destDir : String) (r : HttpResponse) (s : Sys)
    (fp : String) (fc : Content)
    (hst : r.statusCode = 200)
    (hexp : expected ≠ "")
    (hfin : dlFinal decomp url destDir r = some (fp, fc))
    (hmm : hashFn fc ≠ expected) :
    ∃ s1 wrote,
      DownloadImage hashFn decomp url expected destDir (Except.ok r) s =
        (Except.error ("SHA256 mismatch: expected " ++ expected ++ ", got " ++ hashFn fc),
         s1, wrote) ∧
      (∀ q, lookupFile s1.localFiles q = none ∨
            lookupFile s1.localFiles q = lookupFile s.localFiles q) ∧
      lookupFile s1.localFiles fp = none ∧
      s1.bmc = s.bmc := by
  dsimp only [DownloadImage]
  rw [if_neg (show ¬(r.statusCode ≠ 200) by simp [hst])]
  by_cases hcomp : detectCompression url r.contentType = ""
  · rw [if_pos hcomp]
    dsimp only [dlFinal] at hfin
    rw [if_pos hcomp] at hfin
    simp only [Option.some.injEq, Prod.mk.injEq] at hfin
    obtain ⟨hfp, hfc⟩ := hfin
    subst hfp; subst hfc
    rw [if_pos ⟨hexp, hmm⟩]
    refine ⟨_, _, rfl, ?_, ?_, rfl⟩
    · intro q
      rw [lookupFile_removeFileL, lookupFile_writeFileL]
      by_cases h1 : (destDir ++ "/" ++ filePathBase url) = q
      · left
        rw [if_pos h1]
      · right
        rw [if_neg h1, if_neg h1]
    · rw [lookupFile_removeFileL, if_pos rfl]
  · rw [if_neg hcomp]
    dsimp only [dlFinal] at hfin
    rw [if_neg hcomp] at hfin
    cases hdc : decomp (detectCompression url r.contentType) r.body with
    | error e =>
      rw [hdc] at hfin
      exact absurd hfin (by simp)
    | ok cc =>
      rw [hdc] at hfin
      simp only [Option.some.injEq, Prod.mk.injEq] at hfin
      obtain ⟨hfp, hfc⟩ := hfin
      subst hfp; subst hfc
      have hmem : detectCompression url r.contentType = "xz" ∨
          detectCompression url r.contentType = "gz" ∨
          detectCompression url r.contentType = "zip" := by
        rcases detectCompression_cases url r.contentType with h | h | h | h
        · exact absurd h hcomp
        · exact Or.inl h
        · exact Or.inr (Or.inl h)
        · exact Or.inr (Or.inr h)
      have hdec : decompress decomp
          (destDir ++ "/" ++ filePathBase url)
          (detectCompression url r.contentType) r.body =
          Except.ok (decompressOutputPath (destDir ++ "/" ++ filePathBase url)
            (detectCompression url r.contentType), cc) := by
        dsimp only [decompress]
        rw [if_pos hmem, hdc]
      rw [hdec]
      dsimp only
      rw [if_pos ⟨hexp, hmm⟩]
      refine ⟨_, _, rfl, ?_, ?_, rfl⟩
      · intro q
        rw [lookupFile_removeFileL, lookupFile_removeFileL, lookupFile_writeFileL,
          lookupFile_writeFileL]
        by_cases h1 : decompressOutputPath (destDir ++ "/" ++ filePathBase url)
            (detectCompression url r.contentType) = q
        · left
          rw [if_pos h1]
        · rw [if_neg h1]
          by_cases h2 : (destDir ++ "/" ++ filePathBase url) = q
          · left
            rw [if_pos h2]
          · right
            rw [if_neg h2, if_neg h1, if_neg h2]
      · rw [lookupFile_removeFileL, if_pos rfl]

/-- C5: when the caller supplies an expected hash and the final
decompressed file hashes differently, `DownloadImage` fails with the
SHA256-mismatch error and the decompressed output is deleted; the
provisioning run consequently fails before the cache-store step, leaving
no entry under that hash in either backend. -/
theorem c5_integrity_mismatch (c : ImageCache) (hashFn : Content → String)
    (decomp : String → Content → Except String Content)
    (destDir : String) (flashOk : Bool) (plan : Plan) (s : Sys)
    (r : HttpResponse) (fp : String) (fc : Content)
    (hst : r.statusCode = 200)
    (hfin : dlFinal decomp plan.imageURL destDir r = some (fp, fc)) :
    (plan.sha256 ≠ "" → hashFn fc ≠ plan.sha256 →
      ∃ s1 wrote,
        DownloadImage hashFn decomp plan.imageURL plan.sha256 destDir (Except.ok r) s =
          (Except.error ("SHA256 mismatch: expected " ++ plan.sha256 ++ ", got " ++
            hashFn fc), s1, wrote) ∧
        lookupFile s1.localFiles fp = none) ∧
    (plan.imageURL ≠ "" → plan.sha256 ≠ "" → hashFn fc ≠ plan.sha256 →
      GetCachedImagePath c plan.sha256 plan.cache s = Except.ok "" →
      fileAtCachePath c CacheLocationLocal plan.sha256 s = none →
      fileAtCachePath c CacheLocationBMC plan.sha256 s = none →
      ∃ e, (executeFlash c hashFn decomp (Except.ok r) destDir flashOk plan s).1 =
        Except.error e ∧
      fileAtCachePath c CacheLocationLocal plan.sha256
        (executeFlash c hashFn decomp (Except.ok r) destDir flashOk plan s).2.1 = none ∧
      fileAtCachePath c CacheLocationBMC plan.sha256
        (executeFlash c hashFn decomp (Except.ok r) destDir flashOk plan s).2.1 = none ∧
      (executeFlash c hashFn decomp (Except.ok r) destDir flashOk plan s).2.2.cacheAttempts
        = 0 ∧
      (executeFlash c hashFn decomp (Except.ok r) destDir flashOk plan s).2.2.flashOp
        = none) := by
  constructor
  · intro hsha hmm
    obtain ⟨s1, wrote, hdl, hpres, hfp, hbmc⟩ :=
      DownloadImage_mismatch hashFn decomp plan.imageURL plan.sha256 destDir r s fp fc
        hst hsha hfin hmm
    exact ⟨s1, wrote, hdl, hfp⟩
  · intro hurl hsha hmm hmiss habs1 habs2
    obtain ⟨s1, wrote, hdl, hpres, hfp, hbmc⟩ :=
      DownloadImage_mismatch hashFn decomp plan.imageURL plan.sha256 destDir r s fp fc
        hst hsha hfin hmm
    have hred : executeFlash c hashFn decomp (Except.ok r) destDir flashOk plan s =
        (Except.error ("failed to download image: " ++ ("SHA256 mismatch: expected " ++
          plan.sha256 ++ ", got " ++ hashFn fc)), s1, ⟨1, 0, 0, none⟩) := by
      dsimp only [executeFlash]
      rw [if_pos hurl, if_pos hsha, hmiss]
      dsimp only
      rw [if_neg (show ¬(("" : String) ≠ "") by simp)]
      rw [hdl]
    rw [hred]
    refine ⟨_, rfl, ?_, ?_, rfl, rfl⟩
    · rw [fileAtCachePath, if_pos rfl]
      rcases hpres (c.localDir ++ "/" ++ plan.sha256 ++ ".img") with hn | he
      · exact hn
      · rw [he]
        rw [fileAtCachePath, if_pos rfl] at habs1
        exact habs1
    · rw [fileAtCachePath, if_neg (by decide), if_pos rfl, hbmc]
      rw [fileAtCachePath, if_neg (by decide), if_pos rfl] at habs2
      exact habs2

/-- C5 witness: a concrete mismatched download (`"xx"` computed against
`"kk"` expected) fails provisioning with no flash dispatched, no
cache-store attempted, and nothing stored under `"kk"` locally. -/
theorem c5_integrity_mismatch_witness :
    (executeFlash ⟨"/c"⟩ (fun cnt => if cnt = [7] then "kk" else "xx")
      (fun _ _ => Except.error "x") (Except.ok ⟨200, "", [1]⟩) "/d" true
      ⟨1, "http://x/i.img", "", "kk", "local", false⟩
      ⟨[], ⟨false, [], none, false, false⟩⟩).2.2.flashOp = none ∧
    (executeFlash ⟨"/c"⟩ (fun cnt => if cnt = [7] then "kk" else "xx")
      (fun _ _ => Except.error "x") (Except.ok ⟨200, "", [1]⟩) "/d" true
      ⟨1, "http://x/i.img", "", "kk", "local", false⟩
      ⟨[], ⟨false, [], none, false, false⟩⟩).2.2.cacheAttempts = 0 ∧
    fileAtCachePath ⟨"/c"⟩ CacheLocationLocal "kk"
      (executeFlash ⟨"/c"⟩ (fun cnt => if cnt = [7] then "kk" else "xx")
        (fun _ _ => Except.error "x") (Except.ok ⟨200, "", [1]⟩) "/d" true
        ⟨1, "http://x/i.img", "", "kk", "local", false⟩
        ⟨[], ⟨false, [], none, false, false⟩⟩).2.1 = none := by
  obtain ⟨e, h1, h2, h3, h4, h5⟩ :=
    (c5_integrity_mismatch ⟨"/c"⟩ (fun cnt => if cnt = [7] then "kk" else "xx")
      (fun _ _ => Except.error "x") "/d" true
      ⟨1, "http://x/i.img", "", "kk", "local", false⟩
      ⟨[], ⟨false, [], none, false, false⟩⟩ ⟨200, "", [1]⟩ "/d/i.img" [1]
      rfl rfl).2 (by decide) (by decide) (by decide) rfl rfl rfl
  exact ⟨h5, h4, h2⟩

/-! ### Claim C1 — flash dispatch with cacheLocation = bmc -/

/-- C1 (code bug): with `cacheLocation = "bmc"`, a cache miss, and a fresh
download whose hash matches, the image is stored to the BMC cache at
`/tmp/tpi-cache/h1.img`, yet `FlashNodeLocal` is invoked with the freshly
downloaded host-local temp path `/tmp/dl/img.img` — the `imagePath`
variable is never updated to the cached remote path in the URL branch —
contradicting the dispatch rule and `FlashNodeLocal`'s documented contract
of flashing a path that exists on the BMC filesystem. -/
theorem c1_bmc_dispatch_uses_local_temp_path :
    executeFlash ⟨"/h/.cache"⟩ (fun cnt => if cnt = [7] then "h1" else "h0")
      (fun _ _ => Except.error "nodecomp") (Except.ok ⟨200, "", [7]⟩) "/tmp/dl" true
      ⟨1, "http://host/img.img", "", "h1", "bmc", false⟩
      ⟨[], ⟨false, [], none, false, false⟩⟩ =
      (Except.ok ⟨"h1"⟩,
       ⟨[("/tmp/dl/img.img", [7])], ⟨true, [("h1.img", [7])], none, false, false⟩⟩,
       ⟨1, 1, 0, some (FlashOp.flashNodeLocal 1 "/tmp/dl/img.img")⟩) ∧
    "/tmp/dl/img.img" ≠ bmcCacheDir ++ "/" ++ "h1" ++ ".img" := by
  exact ⟨rfl, by decide⟩

end TuringPi
